import Mathlib

/-!
# Verification of the AirLife ETL pipeline

A shallow embedding of the transform (`src/transform_data.py`) and load/verify
(`src/load_data.py`) stages of the AirLife ETL pipeline, together with proofs
of the specified data-quality and failure-semantics properties.

Batches are modelled as `PandasDF`: a list of column names plus a list of rows,
each row a list of `Value` cells.  Numbers are embedded as rationals; the
pandas missing value (`NaN` / `None`) is `Value.null`.
-/

/-- A cell value of a data frame: missing (`NaN`/`None`), a number, a string,
or a boolean. -/
inductive Value where
  | null : Value
  | num : ℚ → Value
  | str : String → Value
  | bool : Bool → Value
deriving DecidableEq, Repr, Inhabited

/-- A pandas data frame: named columns and a list of rows (each row is the
list of cell values, positionally matching `cols`). -/
structure PandasDF where
  cols : List String
  rows : List (List Value)
deriving DecidableEq, Repr, Inhabited

namespace PandasDF

/-- `df.empty` in pandas: true iff either axis has length 0. -/
def empty (df : PandasDF) : Bool := df.rows.isEmpty || df.cols.isEmpty

/-- `df.shape[1]`: the number of columns. -/
def shape1 (df : PandasDF) : Nat := df.cols.length

end PandasDF

/-- `pd.DataFrame()`: the fresh empty data frame (no columns, no rows). -/
def emptyDF : PandasDF := ⟨[], []⟩

/-- Cell of a row at a named column (by position of the name in `cols`;
a missing column or a short row reads as `null`). -/
def cellAt (cols : List String) (row : List Value) (c : String) : Value :=
  row.getD (cols.indexOf c) Value.null

/-- Is a cell the pandas missing value? -/
def isNull : Value → Bool
  | Value.null => true
  | _ => false

/-- `v >= q` as pandas evaluates it on a cell: true only for an in-range
number (`NaN >= q` is false). -/
def valGE (v : Value) (q : ℚ) : Bool :=
  match v with
  | Value.num x => decide (q ≤ x)
  | _ => false

/-- `v <= q` as pandas evaluates it on a cell. -/
def valLE (v : Value) (q : ℚ) : Bool :=
  match v with
  | Value.num x => decide (x ≤ q)
  | _ => false

/-- `df.dropna(subset=subset)`: keep only rows whose cells at all the
`subset` columns are non-missing. -/
def dropnaSubset (subset : List String) (df : PandasDF) : PandasDF :=
  ⟨df.cols, df.rows.filter (fun r => subset.all (fun c => !(isNull (cellAt df.cols r c))))⟩

/-- `df[(df[c] >= lo) & (df[c] <= hi)]`: keep only rows whose cell at
column `c` is a number between `lo` and `hi`. -/
def filterBetween (c : String) (lo hi : ℚ) (df : PandasDF) : PandasDF :=
  ⟨df.cols, df.rows.filter (fun r => valGE (cellAt df.cols r c) lo && valLE (cellAt df.cols r c) hi)⟩

/-- `df[c] = df[c].map f` (column-wise assignment): rewrite the cell at
column `c` of every row. -/
def mapCol (c : String) (f : Value → Value) (df : PandasDF) : PandasDF :=
  ⟨df.cols, df.rows.map (fun r => r.set (df.cols.indexOf c) (f (r.getD (df.cols.indexOf c) Value.null)))⟩

/-- Numeric value of a digit run (most significant first). -/
def digitsVal (l : List Char) : ℕ :=
  l.foldl (fun n c => 10 * n + (c.toNat - 48)) 0

/-- Parse an unsigned decimal literal (`"12"`, `"12.5"`, `".5"`, `"12."`). -/
def parseUnsigned (l : List Char) : Option ℚ :=
  match l.splitOn '.' with
  | [ip] =>
      if !ip.isEmpty && ip.all Char.isDigit then some ((digitsVal ip : ℕ) : ℚ) else none
  | [ip, fp] =>
      if ip.all Char.isDigit && fp.all Char.isDigit && (!ip.isEmpty || !fp.isEmpty) then
        some (((digitsVal ip : ℕ) : ℚ) + ((digitsVal fp : ℕ) : ℚ) / ((10 : ℚ) ^ fp.length))
      else none
  | _ => none

/-- Parse a signed decimal literal. -/
def parseNum (s : String) : Option ℚ :=
  match s.toList with
  | '-' :: rest => (parseUnsigned rest).map (fun q => -q)
  | '+' :: rest => parseUnsigned rest
  | l => parseUnsigned l

/-- `pd.to_numeric(v, errors="coerce")` on one cell: numbers pass through,
booleans coerce to 0/1, numeric strings parse, anything else becomes
missing (`NaN`), never zero. -/
def toNumeric : Value → Value
  | Value.null => Value.null
  | Value.num q => Value.num q
  | Value.bool b => Value.num (if b then 1 else 0)
  | Value.str s =>
      match parseNum s with
      | some q => Value.num q
      | none => Value.null

/-- Python `str(v)`: the missing value renders as the literal text `"None"`. -/
def pyStr : Value → String
  | Value.null => "None"
  | Value.str s => s
  | Value.num q => toString q
  | Value.bool b => if b then "True" else "False"

/-- Characters removed by Python `str.strip()`. -/
def isWS (c : Char) : Bool := c.isWhitespace

/-- `str.strip()` on a character list: drop leading and trailing whitespace. -/
def stripChars (l : List Char) : List Char :=
  ((l.dropWhile isWS).reverse.dropWhile isWS).reverse

/-- Python `s.strip()`. -/
def pyStrip (s : String) : String := String.mk (stripChars s.toList)

/-- The sentinel "no IATA code" replacement of `clean_airports`:
`df["iata_code"].replace(["", "N", "\\N"], None)` on one cell. -/
def replaceIata (v : Value) : Value :=
  if v = Value.str "" ∨ v = Value.str "N" ∨ v = Value.str "\\N" then Value.null else v

/-- The meters-to-feet factor `3.28084` of `clean_flights`. -/
def feetPerMeter : ℚ := 328084 / 100000

/-- The altitude transform of `clean_flights`:
`pd.to_numeric(df["altitude"], errors="coerce") * 3.28084` on one cell
(`NaN * 3.28084 = NaN`). -/
def altToFeet (v : Value) : Value :=
  match toNumeric v with
  | Value.num q => Value.num (q * feetPerMeter)
  | _ => Value.null

/-- The callsign transform of `clean_flights`:
`df["callsign"].astype(str).str.strip()` on one cell. -/
def callsignClean (v : Value) : Value :=
  Value.str (pyStrip (pyStr v))

/-- `clean_airports` from `src/transform_data.py`: empty-input short-circuit,
drop rows with missing coordinates, keep rows with in-bounds coordinates,
normalize IATA sentinels and coerce altitude (each only when the column is
present). -/
def clean_airports (airports_df : PandasDF) : PandasDF :=
  if airports_df.empty then airports_df
  else
    let df := airports_df
    let df := dropnaSubset ["latitude", "longitude"] df
    let df := filterBetween "latitude" (-90) 90 df
    let df := filterBetween "longitude" (-180) 180 df
    let df := if "iata_code" ∈ df.cols then mapCol "iata_code" replaceIata df else df
    let df := if "altitude" ∈ df.cols then mapCol "altitude" toNumeric df else df
    df

/-- The canonical 17-column OpenSky schema of `clean_flights`. -/
def expectedColumns : List String :=
  ["icao24", "callsign", "origin_country", "time_position", "last_contact",
   "longitude", "latitude", "altitude", "on_ground", "velocity",
   "true_track", "vertical_rate", "sensors", "geo_altitude", "squawk",
   "spi", "position_source"]

/-- `clean_flights` from `src/transform_data.py`: empty-input short-circuit;
fail closed (return `pd.DataFrame()`) when the column count is not 17;
otherwise rename the columns, drop rows with missing coordinates, keep rows
with in-bounds coordinates, convert altitude from meters to feet, and trim
the callsign as a string. -/
def clean_flights (flights_df : PandasDF) : PandasDF :=
  if flights_df.empty then flights_df
  else
    let df := flights_df
    if df.shape1 = expectedColumns.length then
      let df : PandasDF := ⟨expectedColumns, df.rows⟩
      let df := dropnaSubset ["longitude", "latitude"] df
      let df := filterBetween "latitude" (-90) 90 df
      let df := filterBetween "longitude" (-180) 180 df
      let df := mapCol "altitude" altToFeet df
      let df := mapCol "callsign" callsignClean df
      df
    else emptyDF

example : expectedColumns.indexOf "longitude" = 5 := by decide
example : expectedColumns.indexOf "latitude" = 6 := by decide
example : expectedColumns.indexOf "altitude" = 7 := by decide
example : expectedColumns.indexOf "callsign" = 1 := by decide
example : altToFeet (Value.num 1000) = Value.num (328084 / 100) := by
  norm_num [altToFeet, toNumeric, feetPerMeter]
example : toNumeric (Value.str "abc") = Value.null := by decide
example : pyStrip "  FL123 " = "FL123" := by decide

/-! ## The database model: load (`load_to_database`) and verify (`verify_data`)

The relational sink holds two optional tables (`none` = the table does not
exist).  Queries run through a single interface `execQuery`; an oracle
`ok : ℕ → Bool` decides whether the `i`-th round trip of a call succeeds,
modelling arbitrary connection/write failures.  Replacing a table mutates the
state; count/sample queries leave it unchanged and fail on an absent table. -/

/-- The relational store: the two named tables, each possibly absent. -/
structure DBState where
  airports : Option PandasDF
  flights : Option PandasDF
deriving DecidableEq, Repr, Inhabited

/-- A database round trip: `to_sql(..., if_exists="replace")`, a
`SELECT COUNT(*)`, or a `SELECT col1, ... LIMIT n` sample. -/
inductive Query where
  | toSqlReplace (table : String) (df : PandasDF)
  | readCount (table : String)
  | readSample (table : String) (sel : List String) (limit : ℕ)
deriving DecidableEq, Repr

/-- Result set of a successful query. -/
inductive QueryResult where
  | written : QueryResult
  | count (n : ℕ) : QueryResult
  | sample (rs : List (List Value)) : QueryResult
deriving DecidableEq, Repr

/-- Look a table up by name. -/
def tableOf (db : DBState) (t : String) : Option PandasDF :=
  if t = "airports" then db.airports
  else if t = "flights" then db.flights
  else none

/-- Replace a table's contents wholesale. -/
def setTable (db : DBState) (t : String) (df : PandasDF) : DBState :=
  if t = "airports" then { db with airports := some df }
  else if t = "flights" then { db with flights := some df }
  else db

/-- `SELECT c1, c2, ... FROM df`: project each row onto the selected columns. -/
def project (sel : List String) (df : PandasDF) : List (List Value) :=
  df.rows.map (fun r => sel.map (fun c => cellAt df.cols r c))

/-- Execute one round trip: the oracle may fail it; reads on an absent table
fail; a replace rewrites the state, reads leave it unchanged. -/
def execQuery (ok : ℕ → Bool) (step : ℕ) (db : DBState) (q : Query) :
    Except String (QueryResult × DBState) :=
  if ok step then
    match q with
    | Query.toSqlReplace t df => Except.ok (QueryResult.written, setTable db t df)
    | Query.readCount t =>
        match tableOf db t with
        | some df => Except.ok (QueryResult.count df.rows.length, db)
        | none => Except.error ("relation does not exist: " ++ t)
    | Query.readSample t sel n =>
        match tableOf db t with
        | some df => Except.ok (QueryResult.sample ((project sel df).take n), db)
        | none => Except.error ("relation does not exist: " ++ t)
  else Except.error "database connection error"

/-- The diagnostic `load_to_database` prints when a write raises. -/
def errorLoadingMsg (e : String) : String :=
  "Error loading data to database: " ++ e

/-- `load_to_database` from `src/load_data.py`: inside one try block, replace
the `airports` table unconditionally, then replace the `flights` table only
when the flight batch is non-empty; any raised error is caught at this
boundary and turned into a diagnostic, leaving the function total. -/
def load_to_database (ok : ℕ → Bool) (db : DBState) (airports_df flights_df : PandasDF) :
    DBState × List String :=
  match execQuery ok 0 db (Query.toSqlReplace "airports" airports_df) with
  | Except.error e => (db, [errorLoadingMsg e])
  | Except.ok (_, db1) =>
    if flights_df.empty then
      (db1, ["Loaded airports", "No flight data to load"])
    else
      match execQuery ok 1 db1 (Query.toSqlReplace "flights" flights_df) with
      | Except.error e => (db1, ["Loaded airports", errorLoadingMsg e])
      | Except.ok (_, db2) => (db2, ["Loaded airports", "Loaded flights"])

/-- Count carried by a `SELECT COUNT(*)` result (`iloc[0]["count"]`). -/
def countOf : QueryResult → ℕ
  | QueryResult.count n => n
  | _ => 0

/-- Rows carried by a sample result. -/
def sampleOf : QueryResult → List (List Value)
  | QueryResult.sample rs => rs
  | _ => []

/-- The report assembled by a fully successful `verify_data` run. -/
structure VerifyReport where
  airportsCount : ℕ
  flightsCount : ℕ
  sampleAirports : List (List Value)
  sampleFlights : Option (List (List Value))
deriving DecidableEq, Repr

/-- Outcome of `verify_data`: either a report, or a caught query failure
turned into a diagnostic (never a propagated exception). -/
inductive VerifyResult where
  | report (r : VerifyReport) : VerifyResult
  | caught (e : String) : VerifyResult
deriving DecidableEq, Repr

/-- The try-block body of `verify_data`: count both tables, sample the first
3 airports, and sample the first 3 flights only when the flight count is
positive.  Threads the database state through every query. -/
def verifyBody (ok : ℕ → Bool) (db : DBState) : Except String (VerifyReport × DBState) :=
  match execQuery ok 0 db (Query.readCount "airports") with
  | Except.error e => Except.error e
  | Except.ok (r1, db1) =>
    match execQuery ok 1 db1 (Query.readCount "flights") with
    | Except.error e => Except.error e
    | Except.ok (r2, db2) =>
      match execQuery ok 2 db2 (Query.readSample "airports" ["name", "city", "country"] 3) with
      | Except.error e => Except.error e
      | Except.ok (r3, db3) =>
        if 0 < countOf r2 then
          match execQuery ok 3 db3
              (Query.readSample "flights" ["callsign", "origin_country", "altitude"] 3) with
          | Except.error e => Except.error e
          | Except.ok (r4, db4) =>
            Except.ok (⟨countOf r1, countOf r2, sampleOf r3, some (sampleOf r4)⟩, db4)
        else
          Except.ok (⟨countOf r1, countOf r2, sampleOf r3, none⟩, db3)

/-- `verify_data` from `src/load_data.py`: the body wrapped in the
try/except that converts any query failure into a diagnostic. -/
def verify_data (ok : ℕ → Bool) (db : DBState) : VerifyResult :=
  match verifyBody ok db with
  | Except.ok (r, _) => VerifyResult.report r
  | Except.error e => VerifyResult.caught ("Error verifying data: " ++ e)

/-- Output of a full load-then-verify run of `main`. -/
structure PipelineOut where
  db : DBState
  loadMessages : List String
  verifyResult : VerifyResult
deriving DecidableEq, Repr

/-- The load and verify stages as sequenced by `main`: any error the loader
failed to catch would surface as `Except.error` here and abort the run before
verification. -/
def etlRun (wok rok : ℕ → Bool) (db : DBState) (airports_df flights_df : PandasDF) :
    Except String PipelineOut := do
  let res := load_to_database wok db airports_df flights_df
  let v := verify_data rok res.1
  Except.ok ⟨res.1, res.2, v⟩

/-! ## The heap model of the cleaning functions

`clean_airports` and `clean_flights` receive a reference to a caller-owned
data frame.  The heap holds every live data frame; an address is an index.
`df.copy()`, `dropna` and boolean-mask filtering allocate fresh objects;
column assignment (`df[c] = ...`, `df.columns = ...`) mutates the object the
local name is currently bound to, in place.  The purity contract is that the
object at the argument's address is untouched. -/

/-- The heap of live data frames; an address is an index into the list. -/
abbrev Heap := List PandasDF

/-- Read the data frame at an address. -/
def readH (h : Heap) (a : ℕ) : PandasDF := h.getD a default

/-- `clean_airports`, statement by statement, on the heap: copy the argument,
rebind `df` to the fresh objects returned by `dropna` and the two mask
filters, then mutate the copy's IATA and altitude columns in place. -/
def cleanAirportsProg (h : Heap) (a : ℕ) : Heap × ℕ :=
  if (readH h a).empty then (h, a)
  else
    let h1 := h ++ [readH h a]
    let d1 := h.length
    let h2 := h1 ++ [dropnaSubset ["latitude", "longitude"] (readH h1 d1)]
    let d2 := h1.length
    let h3 := h2 ++ [filterBetween "latitude" (-90) 90 (readH h2 d2)]
    let d3 := h2.length
    let h4 := h3 ++ [filterBetween "longitude" (-180) 180 (readH h3 d3)]
    let d4 := h3.length
    let h5 := if "iata_code" ∈ (readH h4 d4).cols then
        h4.set d4 (mapCol "iata_code" replaceIata (readH h4 d4)) else h4
    let h6 := if "altitude" ∈ (readH h5 d4).cols then
        h5.set d4 (mapCol "altitude" toNumeric (readH h5 d4)) else h5
    (h6, d4)

/-- `clean_flights`, statement by statement, on the heap: copy the argument,
mutate the copy's column labels in place, rebind `df` through `dropna` and
the two mask filters, then mutate the altitude and callsign columns in
place; on column-count mismatch allocate a fresh `pd.DataFrame()`. -/
def cleanFlightsProg (h : Heap) (a : ℕ) : Heap × ℕ :=
  if (readH h a).empty then (h, a)
  else
    let h1 := h ++ [readH h a]
    let d1 := h.length
    if (readH h1 d1).shape1 = expectedColumns.length then
      let h2 := h1.set d1 ⟨expectedColumns, (readH h1 d1).rows⟩
      let h3 := h2 ++ [dropnaSubset ["longitude", "latitude"] (readH h2 d1)]
      let d2 := h2.length
      let h4 := h3 ++ [filterBetween "latitude" (-90) 90 (readH h3 d2)]
      let d3 := h3.length
      let h5 := h4 ++ [filterBetween "longitude" (-180) 180 (readH h4 d3)]
      let d4 := h4.length
      let h6 := h5.set d4 (mapCol "altitude" altToFeet (readH h5 d4))
      let h7 := h6.set d4 (mapCol "callsign" callsignClean (readH h6 d4))
      (h7, d4)
    else
      let h2 := h1 ++ [emptyDF]
      let d2 := h1.length
      (h2, d2)

/-! ## List, string and cell-level lemmas -/

theorem indexOf_ne_of_mem {l : List String} {a b : String} (ha : a ∈ l) (hab : a ≠ b) :
    l.indexOf a ≠ l.indexOf b := by
  intro h
  have hal : l.indexOf a < l.length := List.indexOf_lt_length.mpr ha
  by_cases hb : b ∈ l
  · have hbl : l.indexOf b < l.length := List.indexOf_lt_length.mpr hb
    have h1 : l[l.indexOf a]? = some a := by
      rw [List.getElem?_eq_getElem hal]
      exact congrArg some (List.getElem_indexOf hal)
    have h2 : l[l.indexOf b]? = some b := by
      rw [List.getElem?_eq_getElem hbl]
      exact congrArg some (List.getElem_indexOf hbl)
    rw [h] at h1
    rw [h1] at h2
    exact hab (Option.some.inj h2)
  · have hlen : l.indexOf b = l.length := List.indexOf_eq_length.mpr hb
    omega

theorem getD_set_ne {r : List Value} {i j : ℕ} (h : i ≠ j) (v d : Value) :
    (r.set i v).getD j d = r.getD j d := by
  simp [List.getD_eq_getElem?_getD, List.getElem?_set_ne h]

theorem set_getD_self {r : List Value} {i : ℕ} (h : i < r.length) (d : Value) :
    r.set i (r.getD i d) = r := by
  apply List.ext_getElem?
  intro n
  by_cases hn : i = n
  · subst hn
    rw [List.getElem?_set_self h, List.getD_eq_getElem?_getD, List.getElem?_eq_getElem h]
    rfl
  · rw [List.getElem?_set_ne hn]

theorem setcell_eq_self {r : List Value} {i : ℕ} {f : Value → Value}
    (hfix : i < r.length → f (r.getD i Value.null) = r.getD i Value.null) :
    r.set i (f (r.getD i Value.null)) = r := by
  rcases Nat.lt_or_ge i r.length with h | h
  · rw [hfix h]
    exact set_getD_self h _
  · exact List.set_eq_of_length_le h

theorem head?_dropWhile_false {p : Char → Bool} {l : List Char} {a : Char}
    (h : (l.dropWhile p).head? = some a) : p a = false := by
  have hne : l.dropWhile p ≠ [] := by
    intro hnil
    rw [hnil] at h
    simp at h
  have hh := List.head_dropWhile_not p l hne
  rw [List.head?_eq_head hne] at h
  have : (l.dropWhile p).head hne = a := by injection h
  rw [this] at hh
  simpa using hh

theorem getLast?_dropWhile {p : Char → Bool} {l : List Char}
    (h : l.dropWhile p ≠ []) : (l.dropWhile p).getLast? = l.getLast? := by
  induction l with
  | nil => simp at h
  | cons a t ih =>
    by_cases hp : p a
    · rw [List.dropWhile_cons, if_pos hp] at h ⊢
      rw [ih h]
      have ht : t ≠ [] := by
        intro h0
        rw [h0] at h
        simp at h
      cases t with
      | nil => exact absurd rfl ht
      | cons b t2 => exact (List.getLast?_cons_cons).symm
    · rw [List.dropWhile_cons, if_neg hp]

theorem dropWhile_eq_self_of_head? {p : Char → Bool} {l : List Char}
    (h : ∀ a, l.head? = some a → p a = false) : l.dropWhile p = l := by
  cases l with
  | nil => rfl
  | cons a t =>
    have ha := h a rfl
    rw [List.dropWhile_cons, if_neg (by simp [ha])]

theorem stripChars_dropWhile_eq (l : List Char) :
    (stripChars l).dropWhile isWS = stripChars l := by
  apply dropWhile_eq_self_of_head?
  intro a ha
  unfold stripChars at ha
  rw [List.head?_reverse] at ha
  have hkne : (l.dropWhile isWS).reverse.dropWhile isWS ≠ [] := by
    intro h0
    rw [h0] at ha
    simp at ha
  rw [getLast?_dropWhile hkne, List.getLast?_reverse] at ha
  exact head?_dropWhile_false ha

theorem stripChars_idem (l : List Char) : stripChars (stripChars l) = stripChars l := by
  have h1 : (stripChars l).dropWhile isWS = stripChars l := stripChars_dropWhile_eq l
  show (((stripChars l).dropWhile isWS).reverse.dropWhile isWS).reverse = stripChars l
  rw [h1]
  have h2 : (stripChars l).reverse.dropWhile isWS = (stripChars l).reverse := by
    unfold stripChars
    rw [List.reverse_reverse]
    exact List.dropWhile_idempotent _ _
  rw [h2, List.reverse_reverse]

theorem pyStrip_idem (s : String) : pyStrip (pyStrip s) = pyStrip s := by
  unfold pyStrip
  rw [show (String.mk (stripChars s.toList)).toList = stripChars s.toList from rfl, stripChars_idem]

theorem replaceIata_fix (v : Value) : replaceIata (replaceIata v) = replaceIata v := by
  by_cases h : v = Value.str "" ∨ v = Value.str "N" ∨ v = Value.str "\\N"
  · have hv : replaceIata v = Value.null := by
      rw [replaceIata, if_pos h]
    rw [hv]
    rfl
  · have hv : replaceIata v = v := by
      rw [replaceIata, if_neg h]
    rw [hv, hv]

theorem toNumeric_fix (v : Value) : toNumeric (toNumeric v) = toNumeric v := by
  cases v with
  | null => rfl
  | num q => rfl
  | bool b => cases b <;> rfl
  | str s =>
    rcases hp : parseNum s with _ | q <;> simp [toNumeric, hp]

theorem callsignClean_fix (v : Value) : callsignClean (callsignClean v) = callsignClean v := by
  unfold callsignClean
  rw [show pyStr (Value.str (pyStrip (pyStr v))) = pyStrip (pyStr v) from rfl, pyStrip_idem]

/-! ## Data-frame stage lemmas -/

theorem cols_dropnaSubset (s : List String) (df : PandasDF) :
    (dropnaSubset s df).cols = df.cols := rfl

theorem cols_filterBetween (c : String) (lo hi : ℚ) (df : PandasDF) :
    (filterBetween c lo hi df).cols = df.cols := rfl

theorem cols_mapCol (c : String) (f : Value → Value) (df : PandasDF) :
    (mapCol c f df).cols = df.cols := rfl

theorem dropnaSubset_eq_self {s : List String} {df : PandasDF}
    (h : ∀ r ∈ df.rows, s.all (fun c => !(isNull (cellAt df.cols r c))) = true) :
    dropnaSubset s df = df := by
  unfold dropnaSubset
  rw [List.filter_eq_self.mpr h]

theorem filterBetween_eq_self {c : String} {lo hi : ℚ} {df : PandasDF}
    (h : ∀ r ∈ df.rows, (valGE (cellAt df.cols r c) lo && valLE (cellAt df.cols r c) hi) = true) :
    filterBetween c lo hi df = df := by
  unfold filterBetween
  rw [List.filter_eq_self.mpr h]

theorem mapCol_eq_self {c : String} {f : Value → Value} {df : PandasDF}
    (h : ∀ r ∈ df.rows,
      r.set (df.cols.indexOf c) (f (r.getD (df.cols.indexOf c) Value.null)) = r) :
    mapCol c f df = df := by
  unfold mapCol
  rw [List.map_congr_left h]
  simp

theorem length_rows_clean_airports (df : PandasDF) :
    (clean_airports df).rows.length ≤ df.rows.length := by
  unfold clean_airports
  by_cases hemp : df.empty
  · rw [if_pos hemp]
  · rw [if_neg hemp]
    have h1 := List.length_filter_le
      (fun r => ["latitude", "longitude"].all (fun c => !(isNull (cellAt df.cols r c)))) df.rows
    have h2 := List.length_filter_le
      (fun r => valGE (cellAt df.cols r "latitude") (-90) && valLE (cellAt df.cols r "latitude") 90)
      (dropnaSubset ["latitude", "longitude"] df).rows
    have h3 := List.length_filter_le
      (fun r => valGE (cellAt df.cols r "longitude") (-180) && valLE (cellAt df.cols r "longitude") 180)
      (filterBetween "latitude" (-90) 90 (dropnaSubset ["latitude", "longitude"] df)).rows
    by_cases hi : "iata_code" ∈ df.cols <;> by_cases halt : "altitude" ∈ df.cols <;>
      simp only [hi, halt, if_true, if_false, cols_dropnaSubset, cols_filterBetween,
        cols_mapCol, if_pos, if_neg, mapCol, dropnaSubset, filterBetween,
        List.length_map] <;>
      simp_all [dropnaSubset, filterBetween] <;> omega

theorem length_rows_clean_flights (df : PandasDF) :
    (clean_flights df).rows.length ≤ df.rows.length := by
  unfold clean_flights
  by_cases hemp : df.empty
  · rw [if_pos hemp]
  · rw [if_neg hemp]
    by_cases h17 : df.shape1 = expectedColumns.length
    · rw [if_pos h17]
      simp only [mapCol, dropnaSubset, filterBetween, List.length_map]
      have h1 := List.length_filter_le
        (fun r => ["longitude", "latitude"].all
          (fun c => !(isNull (cellAt expectedColumns r c)))) df.rows
      have h2 := List.length_filter_le
        (fun r => valGE (cellAt expectedColumns r "latitude") (-90) &&
          valLE (cellAt expectedColumns r "latitude") 90)
        (List.filter (fun r => ["longitude", "latitude"].all
          (fun c => !(isNull (cellAt expectedColumns r c)))) df.rows)
      have h3 := List.length_filter_le
        (fun r => valGE (cellAt expectedColumns r "longitude") (-180) &&
          valLE (cellAt expectedColumns r "longitude") 180)
        (List.filter (fun r => valGE (cellAt expectedColumns r "latitude") (-90) &&
            valLE (cellAt expectedColumns r "latitude") 90)
          (List.filter (fun r => ["longitude", "latitude"].all
            (fun c => !(isNull (cellAt expectedColumns r c)))) df.rows))
      omega
    · rw [if_neg h17]
      simp [emptyDF]

theorem mem_mapCol {c : String} {f : Value → Value} {df : PandasDF} {r : List Value} :
    r ∈ (mapCol c f df).rows ↔
      ∃ r0 ∈ df.rows,
        r = r0.set (df.cols.indexOf c) (f (r0.getD (df.cols.indexOf c) Value.null)) := by
  simp [mapCol, List.mem_map, eq_comm]

theorem cellAt_set_of_mem_ne {cols : List String} {a b : String} (ha : a ∈ cols)
    (hab : a ≠ b) (r : List Value) (v : Value) :
    cellAt cols (r.set (cols.indexOf a) v) b = cellAt cols r b := by
  unfold cellAt
  exact getD_set_ne (indexOf_ne_of_mem ha hab) _ _

theorem clean_flights_eq {df : PandasDF} (hne : df.empty = false)
    (h17 : df.shape1 = expectedColumns.length) :
    clean_flights df =
      mapCol "callsign" callsignClean (mapCol "altitude" altToFeet
        (filterBetween "longitude" (-180) 180 (filterBetween "latitude" (-90) 90
          (dropnaSubset ["longitude", "latitude"] ⟨expectedColumns, df.rows⟩)))) := by
  unfold clean_flights
  rw [hne]
  rw [if_neg (by simp), if_pos h17]

theorem mem_clean_flights {df : PandasDF} {r : List Value} (hne : df.empty = false)
    (h17 : df.shape1 = expectedColumns.length)
    (hr : r ∈ (clean_flights df).rows) :
    ∃ r0 ∈ df.rows,
      r = (r0.set 7 (altToFeet (r0.getD 7 Value.null))).set 1
            (callsignClean (r0.getD 1 Value.null)) ∧
      isNull (r0.getD 5 Value.null) = false ∧
      isNull (r0.getD 6 Value.null) = false ∧
      (valGE (r0.getD 6 Value.null) (-90) && valLE (r0.getD 6 Value.null) 90) = true ∧
      (valGE (r0.getD 5 Value.null) (-180) && valLE (r0.getD 5 Value.null) 180) = true := by
  rw [clean_flights_eq hne h17] at hr
  have i5 : expectedColumns.indexOf "longitude" = 5 := by decide
  have i6 : expectedColumns.indexOf "latitude" = 6 := by decide
  have i7 : expectedColumns.indexOf "altitude" = 7 := by decide
  have i1 : expectedColumns.indexOf "callsign" = 1 := by decide
  simp only [mapCol, filterBetween, dropnaSubset, cellAt, cols_mapCol, cols_filterBetween,
    cols_dropnaSubset, i5, i6, i7, i1, List.mem_map, List.mem_filter,
    List.all_cons, List.all_nil, Bool.and_true, Bool.and_eq_true,
    Bool.not_eq_true'] at hr
  obtain ⟨r1, ⟨r0, ⟨⟨⟨hr0, hnull5, hnull6⟩, hge6, hle6⟩, hge5, hle5⟩, hr1⟩, hrr⟩ := hr
  refine ⟨r0, hr0, ?_, hnull5, hnull6, ?_, ?_⟩
  · subst hr1
    rw [getD_set_ne (by omega) _ _] at hrr
    exact hrr.symm
  · rw [Bool.and_eq_true]
    exact ⟨hge6, hle6⟩
  · rw [Bool.and_eq_true]
    exact ⟨hge5, hle5⟩

theorem mem_airport_filtered {df : PandasDF} {r : List Value}
    (hr : r ∈ (filterBetween "longitude" (-180) 180 (filterBetween "latitude" (-90) 90
      (dropnaSubset ["latitude", "longitude"] df))).rows) :
    r ∈ df.rows ∧
      isNull (cellAt df.cols r "latitude") = false ∧
      isNull (cellAt df.cols r "longitude") = false ∧
      (valGE (cellAt df.cols r "latitude") (-90) && valLE (cellAt df.cols r "latitude") 90) = true ∧
      (valGE (cellAt df.cols r "longitude") (-180) &&
        valLE (cellAt df.cols r "longitude") 180) = true := by
  simp only [filterBetween, dropnaSubset, cols_dropnaSubset, cols_filterBetween,
    List.mem_filter, List.all_cons, List.all_nil, Bool.and_true, Bool.and_eq_true,
    Bool.not_eq_true'] at hr
  obtain ⟨⟨⟨hr0, hnl, hno⟩, hge6, hle6⟩, hge5, hle5⟩ := hr
  refine ⟨hr0, hnl, hno, ?_, ?_⟩
  · rw [Bool.and_eq_true]
    exact ⟨hge6, hle6⟩
  · rw [Bool.and_eq_true]
    exact ⟨hge5, hle5⟩

theorem mem_clean_airports {df : PandasDF} {r : List Value} (hne : df.empty = false)
    (hr : r ∈ (clean_airports df).rows) :
    ∃ r0 ∈ df.rows,
      isNull (cellAt df.cols r0 "latitude") = false ∧
      isNull (cellAt df.cols r0 "longitude") = false ∧
      (valGE (cellAt df.cols r0 "latitude") (-90) &&
        valLE (cellAt df.cols r0 "latitude") 90) = true ∧
      (valGE (cellAt df.cols r0 "longitude") (-180) &&
        valLE (cellAt df.cols r0 "longitude") 180) = true ∧
      cellAt df.cols r "latitude" = cellAt df.cols r0 "latitude" ∧
      cellAt df.cols r "longitude" = cellAt df.cols r0 "longitude" := by
  simp only [clean_airports, hne, Bool.false_eq_true, if_false, cols_filterBetween,
    cols_dropnaSubset, cols_mapCol, apply_ite PandasDF.cols, ite_self] at hr
  by_cases halt : "altitude" ∈ df.cols <;> by_cases hi : "iata_code" ∈ df.cols
  · rw [if_pos halt, if_pos hi, mem_mapCol] at hr
    obtain ⟨r1, hr1, hreq⟩ := hr
    rw [mem_mapCol] at hr1
    obtain ⟨r0, hr0, hreq1⟩ := hr1
    simp only [cols_mapCol, cols_filterBetween, cols_dropnaSubset] at hreq hreq1
    obtain ⟨hmem, hnl, hno, hbla, hblo⟩ := mem_airport_filtered hr0
    subst hreq
    subst hreq1
    exact ⟨r0, hmem, hnl, hno, hbla, hblo,
      by rw [cellAt_set_of_mem_ne halt (by decide), cellAt_set_of_mem_ne hi (by decide)],
      by rw [cellAt_set_of_mem_ne halt (by decide), cellAt_set_of_mem_ne hi (by decide)]⟩
  · rw [if_pos halt, if_neg hi, mem_mapCol] at hr
    obtain ⟨r0, hr0, hreq⟩ := hr
    simp only [cols_mapCol, cols_filterBetween, cols_dropnaSubset] at hreq
    obtain ⟨hmem, hnl, hno, hbla, hblo⟩ := mem_airport_filtered hr0
    subst hreq
    exact ⟨r0, hmem, hnl, hno, hbla, hblo,
      by rw [cellAt_set_of_mem_ne halt (by decide)],
      by rw [cellAt_set_of_mem_ne halt (by decide)]⟩
  · rw [if_neg halt, if_pos hi, mem_mapCol] at hr
    obtain ⟨r0, hr0, hreq⟩ := hr
    simp only [cols_mapCol, cols_filterBetween, cols_dropnaSubset] at hreq
    obtain ⟨hmem, hnl, hno, hbla, hblo⟩ := mem_airport_filtered hr0
    subst hreq
    exact ⟨r0, hmem, hnl, hno, hbla, hblo,
      by rw [cellAt_set_of_mem_ne hi (by decide)],
      by rw [cellAt_set_of_mem_ne hi (by decide)]⟩
  · rw [if_neg halt, if_neg hi] at hr
    obtain ⟨hmem, hnl, hno, hbla, hblo⟩ := mem_airport_filtered hr
    exact ⟨r, hmem, hnl, hno, hbla, hblo, rfl, rfl⟩

theorem valBetween_num {v : Value} {lo hi : ℚ} (h : (valGE v lo && valLE v hi) = true) :
    ∃ x : ℚ, v = Value.num x ∧ lo ≤ x ∧ x ≤ hi := by
  cases v with
  | num x =>
    rw [Bool.and_eq_true] at h
    refine ⟨x, rfl, ?_, ?_⟩
    · have := h.1
      simpa [valGE] using this
    · have := h.2
      simpa [valLE] using this
  | null => simp [valGE] at h
  | str s => simp [valGE] at h
  | bool b => simp [valGE] at h

theorem empty_iff (df : PandasDF) : df.empty = true ↔ df.rows = [] ∨ df.cols = [] := by
  simp [PandasDF.empty, List.isEmpty_iff]

theorem clean_airports_of_empty {df : PandasDF} (hemp : df.empty = true) :
    clean_airports df = df := by
  unfold clean_airports
  rw [if_pos hemp]

theorem clean_flights_of_empty {df : PandasDF} (hemp : df.empty = true) :
    clean_flights df = df := by
  unfold clean_flights
  rw [if_pos hemp]

theorem clean_flights_of_mismatch {df : PandasDF} (hne : df.empty = false)
    (h17 : df.shape1 ≠ expectedColumns.length) : clean_flights df = emptyDF := by
  unfold clean_flights
  rw [hne]
  rw [if_neg (by simp), if_neg h17]

theorem expectedColumns_length : expectedColumns.length = 17 := by decide

/-- Rows of a non-empty flight batch with a 17-column schema keep their
latitude and longitude cells (positions 6 and 5) through the cleaning maps. -/
theorem clean_flights_cells {df : PandasDF} {r : List Value} (hne : df.empty = false)
    (h17 : df.shape1 = expectedColumns.length)
    (hr : r ∈ (clean_flights df).rows) :
    (∃ la : ℚ, r.getD 6 Value.null = Value.num la ∧ -90 ≤ la ∧ la ≤ 90) ∧
    (∃ lo : ℚ, r.getD 5 Value.null = Value.num lo ∧ -180 ≤ lo ∧ lo ≤ 180) := by
  obtain ⟨r0, hr0, req, hn5, hn6, hbla, hblo⟩ := mem_clean_flights hne h17 hr
  have h6 : r.getD 6 Value.null = r0.getD 6 Value.null := by
    subst req
    rw [getD_set_ne (by omega) _ _, getD_set_ne (by omega) _ _]
  have h5 : r.getD 5 Value.null = r0.getD 5 Value.null := by
    subst req
    rw [getD_set_ne (by omega) _ _, getD_set_ne (by omega) _ _]
  rw [h6, h5]
  exact ⟨valBetween_num hbla, valBetween_num hblo⟩

/-- **C1.**  Every record of a cleaned airport or flight batch has a numeric
latitude in `[-90, 90]` and a numeric longitude in `[-180, 180]`, and every
input record with a missing or out-of-bounds latitude or longitude is absent
from the cleaned output. -/
theorem C1_coordinate_bounds :
    (∀ df : PandasDF, "latitude" ∈ df.cols → "longitude" ∈ df.cols →
      ∀ r ∈ (clean_airports df).rows,
        (∃ la : ℚ, cellAt df.cols r "latitude" = Value.num la ∧ -90 ≤ la ∧ la ≤ 90) ∧
        (∃ lo : ℚ, cellAt df.cols r "longitude" = Value.num lo ∧ -180 ≤ lo ∧ lo ≤ 180)) ∧
    (∀ df : PandasDF, "latitude" ∈ df.cols → "longitude" ∈ df.cols →
      ∀ r ∈ df.rows,
        (cellAt df.cols r "latitude" = Value.null ∨
          cellAt df.cols r "longitude" = Value.null ∨
          (∃ la : ℚ, cellAt df.cols r "latitude" = Value.num la ∧ (la < -90 ∨ 90 < la)) ∨
          (∃ lo : ℚ, cellAt df.cols r "longitude" = Value.num lo ∧ (lo < -180 ∨ 180 < lo))) →
        r ∉ (clean_airports df).rows) ∧
    (∀ df : PandasDF, df.cols ≠ [] →
      ∀ r ∈ (clean_flights df).rows,
        (∃ la : ℚ, r.getD 6 Value.null = Value.num la ∧ -90 ≤ la ∧ la ≤ 90) ∧
        (∃ lo : ℚ, r.getD 5 Value.null = Value.num lo ∧ -180 ≤ lo ∧ lo ≤ 180)) ∧
    (∀ df : PandasDF, df.shape1 = 17 →
      ∀ r ∈ df.rows,
        (r.getD 6 Value.null = Value.null ∨
          r.getD 5 Value.null = Value.null ∨
          (∃ la : ℚ, r.getD 6 Value.null = Value.num la ∧ (la < -90 ∨ 90 < la)) ∨
          (∃ lo : ℚ, r.getD 5 Value.null = Value.num lo ∧ (lo < -180 ∨ 180 < lo))) →
        r ∉ (clean_flights df).rows) := by
  have airportBounds : ∀ df : PandasDF, "latitude" ∈ df.cols → "longitude" ∈ df.cols →
      ∀ r ∈ (clean_airports df).rows,
        (∃ la : ℚ, cellAt df.cols r "latitude" = Value.num la ∧ -90 ≤ la ∧ la ≤ 90) ∧
        (∃ lo : ℚ, cellAt df.cols r "longitude" = Value.num lo ∧ -180 ≤ lo ∧ lo ≤ 180) := by
    intro df hlat hlon r hr
    by_cases hemp : df.empty
    · rw [clean_airports_of_empty hemp] at hr
      rcases (empty_iff df).mp hemp with h0 | h0
      · rw [h0] at hr
        exact absurd hr (List.not_mem_nil r)
      · rw [h0] at hlat
        exact absurd hlat (List.not_mem_nil _)
    · obtain ⟨r0, hr0, hn1, hn2, hbla, hblo, he1, he2⟩ :=
        mem_clean_airports (Bool.not_eq_true _ ▸ hemp) hr
      rw [he1, he2]
      exact ⟨valBetween_num hbla, valBetween_num hblo⟩
  have flightBounds : ∀ df : PandasDF, df.cols ≠ [] →
      ∀ r ∈ (clean_flights df).rows,
        (∃ la : ℚ, r.getD 6 Value.null = Value.num la ∧ -90 ≤ la ∧ la ≤ 90) ∧
        (∃ lo : ℚ, r.getD 5 Value.null = Value.num lo ∧ -180 ≤ lo ∧ lo ≤ 180) := by
    intro df hcols r hr
    by_cases hemp : df.empty
    · rw [clean_flights_of_empty hemp] at hr
      rcases (empty_iff df).mp hemp with h0 | h0
      · rw [h0] at hr
        exact absurd hr (List.not_mem_nil r)
      · exact absurd h0 hcols
    · by_cases h17 : df.shape1 = expectedColumns.length
      · exact clean_flights_cells (Bool.not_eq_true _ ▸ hemp) h17 hr
      · rw [clean_flights_of_mismatch (Bool.not_eq_true _ ▸ hemp) h17] at hr
        exact absurd hr (List.not_mem_nil r)
  refine ⟨airportBounds, ?_, flightBounds, ?_⟩
  · intro df hlat hlon r _ hbad hr
    obtain ⟨⟨la, hla, hla1, hla2⟩, ⟨lo, hlo, hlo1, hlo2⟩⟩ := airportBounds df hlat hlon r hr
    rcases hbad with h | h | ⟨x, hx, hxb⟩ | ⟨x, hx, hxb⟩
    · rw [h] at hla
      exact Value.noConfusion hla
    · rw [h] at hlo
      exact Value.noConfusion hlo
    · rw [hx] at hla
      have : x = la := Value.num.inj hla
      subst this
      rcases hxb with h1 | h1 <;> linarith
    · rw [hx] at hlo
      have : x = lo := Value.num.inj hlo
      subst this
      rcases hxb with h1 | h1 <;> linarith
  · intro df h17 r _ hbad hr
    have hcols : df.cols ≠ [] := by
      intro h0
      rw [PandasDF.shape1, h0] at h17
      exact absurd h17 (by decide)
    obtain ⟨⟨la, hla, hla1, hla2⟩, ⟨lo, hlo, hlo1, hlo2⟩⟩ := flightBounds df hcols r hr
    rcases hbad with h | h | ⟨x, hx, hxb⟩ | ⟨x, hx, hxb⟩
    · rw [h] at hla
      exact Value.noConfusion hla
    · rw [h] at hlo
      exact Value.noConfusion hlo
    · rw [hx] at hla
      have : x = la := Value.num.inj hla
      subst this
      rcases hxb with h1 | h1 <;> linarith
    · rw [hx] at hlo
      have : x = lo := Value.num.inj hlo
      subst this
      rcases hxb with h1 | h1 <;> linarith

/-- Witness for C1 at concrete batches: a surviving airport row and a
surviving flight row are in bounds, and an out-of-bounds airport row and
flight row are absent from the cleaned outputs. -/
theorem C1_coordinate_bounds_witness :
    ((∃ la : ℚ, cellAt ["latitude", "longitude", "iata_code", "altitude"]
        [Value.num 48, Value.num 2, Value.null, Value.null] "latitude" = Value.num la ∧
        -90 ≤ la ∧ la ≤ 90) ∧
      (∃ lo : ℚ, cellAt ["latitude", "longitude", "iata_code", "altitude"]
        [Value.num 48, Value.num 2, Value.null, Value.null] "longitude" = Value.num lo ∧
        -180 ≤ lo ∧ lo ≤ 180)) ∧
    [Value.num 999, Value.num 0, Value.str "AAA", Value.num 5] ∉
      (clean_airports ⟨["latitude", "longitude", "iata_code", "altitude"],
        [[Value.num 48, Value.num 2, Value.str "N", Value.str "abc"],
         [Value.num 999, Value.num 0, Value.str "AAA", Value.num 5]]⟩).rows ∧
    ((∃ la : ℚ, [Value.null, Value.str "FL1", Value.null, Value.null, Value.null,
        Value.num 10, Value.num 50, Value.null, Value.null, Value.null, Value.null,
        Value.null, Value.null, Value.null, Value.null, Value.null,
        Value.null].getD 6 Value.null = Value.num la ∧ -90 ≤ la ∧ la ≤ 90) ∧
      (∃ lo : ℚ, [Value.null, Value.str "FL1", Value.null, Value.null, Value.null,
        Value.num 10, Value.num 50, Value.null, Value.null, Value.null, Value.null,
        Value.null, Value.null, Value.null, Value.null, Value.null,
        Value.null].getD 5 Value.null = Value.num lo ∧ -180 ≤ lo ∧ lo ≤ 180)) ∧
    [Value.null, Value.null, Value.null, Value.null, Value.null,
      Value.num 10, Value.num 95, Value.null, Value.null, Value.null, Value.null,
      Value.null, Value.null, Value.null, Value.null, Value.null, Value.null] ∉
      (clean_flights ⟨expectedColumns,
        [[Value.null, Value.str " FL1 ", Value.null, Value.null, Value.null,
          Value.num 10, Value.num 50, Value.null, Value.null, Value.null, Value.null,
          Value.null, Value.null, Value.null, Value.null, Value.null, Value.null],
         [Value.null, Value.null, Value.null, Value.null, Value.null,
          Value.num 10, Value.num 95, Value.null, Value.null, Value.null, Value.null,
          Value.null, Value.null, Value.null, Value.null, Value.null,
          Value.null]]⟩).rows :=
  ⟨C1_coordinate_bounds.1 ⟨["latitude", "longitude", "iata_code", "altitude"],
      [[Value.num 48, Value.num 2, Value.str "N", Value.str "abc"],
       [Value.num 999, Value.num 0, Value.str "AAA", Value.num 5]]⟩
      (by decide) (by decide) _ (by decide),
   C1_coordinate_bounds.2.1 ⟨["latitude", "longitude", "iata_code", "altitude"],
      [[Value.num 48, Value.num 2, Value.str "N", Value.str "abc"],
       [Value.num 999, Value.num 0, Value.str "AAA", Value.num 5]]⟩
      (by decide) (by decide) _ (by decide)
      (Or.inr (Or.inr (Or.inl ⟨999, by decide, Or.inr (by decide)⟩))),
   C1_coordinate_bounds.2.2.1 ⟨expectedColumns,
      [[Value.null, Value.str " FL1 ", Value.null, Value.null, Value.null,
        Value.num 10, Value.num 50, Value.null, Value.null, Value.null, Value.null,
        Value.null, Value.null, Value.null, Value.null, Value.null, Value.null],
       [Value.null, Value.null, Value.null, Value.null, Value.null,
        Value.num 10, Value.num 95, Value.null, Value.null, Value.null, Value.null,
        Value.null, Value.null, Value.null, Value.null, Value.null, Value.null]]⟩
      (by decide) _ (by decide),
   C1_coordinate_bounds.2.2.2 ⟨expectedColumns,
      [[Value.null, Value.str " FL1 ", Value.null, Value.null, Value.null,
        Value.num 10, Value.num 50, Value.null, Value.null, Value.null, Value.null,
        Value.null, Value.null, Value.null, Value.null, Value.null, Value.null],
       [Value.null, Value.null, Value.null, Value.null, Value.null,
        Value.num 10, Value.num 95, Value.null, Value.null, Value.null, Value.null,
        Value.null, Value.null, Value.null, Value.null, Value.null, Value.null]]⟩
      (by decide) _ (by decide)
      (Or.inr (Or.inr (Or.inl ⟨95, by decide, Or.inr (by decide)⟩)))⟩

/-- **C3.**  A non-empty flight batch whose column count differs from 17 is
voided wholesale: the result is the fresh empty frame (no rows, no columns),
never a truncated batch; with exactly 17 columns cleaning proceeds and the
result carries the canonical 17-column schema. -/
theorem C3_schema_mismatch_fail_closed :
    (∀ df : PandasDF, df.empty = false → df.shape1 ≠ 17 → clean_flights df = emptyDF) ∧
    (∀ df : PandasDF, df.empty = false → df.shape1 = 17 →
      (clean_flights df).cols = expectedColumns) := by
  constructor
  · intro df hne h17
    exact clean_flights_of_mismatch hne (by rw [expectedColumns_length]; exact h17)
  · intro df hne h17
    rw [clean_flights_eq hne (by rw [expectedColumns_length]; exact h17)]
    rfl

/-- Witness for C3: an 18-column one-row batch is voided to the empty frame,
and a 17-column one-row batch keeps the canonical schema. -/
theorem C3_schema_mismatch_fail_closed_witness :
    clean_flights ⟨expectedColumns ++ ["extra"],
      [List.replicate 18 Value.null]⟩ = emptyDF ∧
    (clean_flights ⟨expectedColumns, [List.replicate 17 Value.null]⟩).cols =
      expectedColumns :=
  ⟨C3_schema_mismatch_fail_closed.1 ⟨expectedColumns ++ ["extra"],
      [List.replicate 18 Value.null]⟩ (by decide) (by decide),
   C3_schema_mismatch_fail_closed.2 ⟨expectedColumns, [List.replicate 17 Value.null]⟩
      (by decide) (by decide)⟩

/-- **C10.**  Cleaning never adds records: both cleaned batches have at most
as many rows as their raw input. -/
theorem C10_cleaning_never_adds_records (df : PandasDF) :
    (clean_airports df).rows.length ≤ df.rows.length ∧
    (clean_flights df).rows.length ≤ df.rows.length :=
  ⟨length_rows_clean_airports df, length_rows_clean_flights df⟩

theorem getD_set_apply {r : List Value} {i : ℕ} {f : Value → Value}
    (hnull : f Value.null = Value.null) :
    (r.set i (f (r.getD i Value.null))).getD i Value.null = f (r.getD i Value.null) := by
  rcases Nat.lt_or_ge i r.length with h | h
  · rw [List.getD_eq_getElem?_getD, List.getElem?_set_self h]
    rfl
  · rw [List.set_eq_of_length_le h]
    have h0 : r.getD i Value.null = Value.null := by
      rw [List.getD_eq_getElem?_getD, List.getElem?_eq_none h]
      rfl
    rw [h0, hnull]

theorem lt_length_of_getD_num {r : List Value} {i : ℕ} {x : ℚ}
    (h : r.getD i Value.null = Value.num x) : i < r.length := by
  by_contra hge
  rw [List.getD_eq_getElem?_getD, List.getElem?_eq_none (Nat.le_of_not_lt hge)] at h
  exact Value.noConfusion h

/-- **C8.**  The cleaned altitude of every surviving flight record is the
numeric coercion of its raw altitude times 3.28084; a non-numeric raw
altitude becomes the missing value, never zero; 1000 meters becomes exactly
3280.84 feet. -/
theorem C8_altitude_meters_to_feet :
    (∀ df : PandasDF, df.shape1 = 17 →
      ∀ r ∈ (clean_flights df).rows, ∃ r0 ∈ df.rows,
        r.getD 7 Value.null = altToFeet (r0.getD 7 Value.null)) ∧
    (∀ v : Value, toNumeric v = Value.null →
      altToFeet v = Value.null ∧ altToFeet v ≠ Value.num 0) ∧
    (∀ (v : Value) (q : ℚ), toNumeric v = Value.num q →
      altToFeet v = Value.num (q * feetPerMeter)) ∧
    altToFeet (Value.num 1000) = Value.num (328084 / 100) := by
  refine ⟨?_, ?_, ?_, ?_⟩
  · intro df h17 r hr
    by_cases hemp : df.empty
    · rcases (empty_iff df).mp hemp with h0 | h0
      · rw [clean_flights_of_empty hemp, h0] at hr
        exact absurd hr (List.not_mem_nil r)
      · rw [PandasDF.shape1, h0] at h17
        exact absurd h17 (by decide)
    · obtain ⟨r0, hr0, req, hn5, hn6, hbla, hblo⟩ :=
        mem_clean_flights (Bool.not_eq_true _ ▸ hemp)
          (by rw [expectedColumns_length]; exact h17) hr
      refine ⟨r0, hr0, ?_⟩
      subst req
      rw [getD_set_ne (by omega) _ _, getD_set_apply rfl]
  · intro v hv
    have h0 : altToFeet v = Value.null := by
      unfold altToFeet
      rw [hv]
    exact ⟨h0, by rw [h0]; exact Value.noConfusion⟩
  · intro v q hv
    unfold altToFeet
    rw [hv]
  · norm_num [altToFeet, toNumeric, feetPerMeter]

/-- Witness for C8 at a concrete batch: the surviving row's altitude cell is
the feet conversion of its raw cell, a non-numeric altitude string maps to
the missing value, and a numeric altitude is scaled by the factor. -/
theorem C8_altitude_meters_to_feet_witness :
    (∃ r0 ∈ [[Value.null, Value.str "FL9", Value.null, Value.null, Value.null,
        Value.num 10, Value.num 50, Value.null, Value.null, Value.null, Value.null,
        Value.null, Value.null, Value.null, Value.null, Value.null, Value.null]],
      ([Value.null, Value.str "FL9", Value.null, Value.null, Value.null,
        Value.num 10, Value.num 50, Value.null, Value.null, Value.null, Value.null,
        Value.null, Value.null, Value.null, Value.null, Value.null,
        Value.null] : List Value).getD 7 Value.null =
        altToFeet (r0.getD 7 Value.null)) ∧
    (altToFeet (Value.str "abc") = Value.null ∧
      altToFeet (Value.str "abc") ≠ Value.num 0) ∧
    altToFeet (Value.num 2) = Value.num (2 * feetPerMeter) :=
  ⟨C8_altitude_meters_to_feet.1 ⟨expectedColumns,
      [[Value.null, Value.str "FL9", Value.null, Value.null, Value.null,
        Value.num 10, Value.num 50, Value.null, Value.null, Value.null, Value.null,
        Value.null, Value.null, Value.null, Value.null, Value.null, Value.null]]⟩
      (by decide) _ (by decide),
   C8_altitude_meters_to_feet.2.1 (Value.str "abc") (by decide),
   C8_altitude_meters_to_feet.2.2.1 (Value.num 2) 2 (by decide)⟩

/-- **C9.**  The cleaned callsign of every surviving flight record is the
trimmed string form of its raw callsign, whatever the raw cell's type, and a
missing raw callsign becomes the literal text `"None"`. -/
theorem C9_callsign_trimmed :
    (∀ df : PandasDF, df.shape1 = 17 →
      ∀ r ∈ (clean_flights df).rows, ∃ r0 ∈ df.rows,
        r.getD 1 Value.null = Value.str (pyStrip (pyStr (r0.getD 1 Value.null)))) ∧
    callsignClean Value.null = Value.str "None" := by
  constructor
  · intro df h17 r hr
    by_cases hemp : df.empty
    · rcases (empty_iff df).mp hemp with h0 | h0
      · rw [clean_flights_of_empty hemp, h0] at hr
        exact absurd hr (List.not_mem_nil r)
      · rw [PandasDF.shape1, h0] at h17
        exact absurd h17 (by decide)
    · obtain ⟨r0, hr0, req, hn5, hn6, hbla, hblo⟩ :=
        mem_clean_flights (Bool.not_eq_true _ ▸ hemp)
          (by rw [expectedColumns_length]; exact h17) hr
      refine ⟨r0, hr0, ?_⟩
      obtain ⟨la, hla, -, -⟩ := valBetween_num hbla
      have hlen : 6 < r0.length := lt_length_of_getD_num hla
      have hlen1 : 1 < (r0.set 7 (altToFeet (r0.getD 7 Value.null))).length := by
        rw [List.length_set]
        omega
      subst req
      rw [List.getD_eq_getElem?_getD, List.getElem?_set_self hlen1]
      rfl
  · decide

/-- Witness for C9 at a concrete batch: a missing raw callsign in a
surviving row is rendered as the trimmed string of its `str()` form, and the
missing value itself renders as the literal `"None"`. -/
theorem C9_callsign_trimmed_witness :
    (∃ r0 ∈ [[Value.null, Value.null, Value.null, Value.null, Value.null,
        Value.num 10, Value.num 50, Value.null, Value.null, Value.null, Value.null,
        Value.null, Value.null, Value.null, Value.null, Value.null, Value.null]],
      ([Value.null, Value.str "None", Value.null, Value.null, Value.null,
        Value.num 10, Value.num 50, Value.null, Value.null, Value.null, Value.null,
        Value.null, Value.null, Value.null, Value.null, Value.null,
        Value.null] : List Value).getD 1 Value.null =
        Value.str (pyStrip (pyStr (r0.getD 1 Value.null)))) ∧
    callsignClean Value.null = Value.str "None" :=
  ⟨C9_callsign_trimmed.1 ⟨expectedColumns,
      [[Value.null, Value.null, Value.null, Value.null, Value.null,
        Value.num 10, Value.num 50, Value.null, Value.null, Value.null, Value.null,
        Value.null, Value.null, Value.null, Value.null, Value.null, Value.null]]⟩
      (by decide) _ (by decide),
   C9_callsign_trimmed.2⟩

/-! ## Idempotence machinery for C2 -/

theorem set_f_twice {r : List Value} {i : ℕ} {f : Value → Value}
    (hff : ∀ v, f (f v) = f v) :
    (r.set i (f (r.getD i Value.null))).set i
      (f ((r.set i (f (r.getD i Value.null))).getD i Value.null)) =
    r.set i (f (r.getD i Value.null)) := by
  rcases Nat.lt_or_ge i r.length with h | h
  · have hg : (r.set i (f (r.getD i Value.null))).getD i Value.null =
        f (r.getD i Value.null) := by
      rw [List.getD_eq_getElem?_getD, List.getElem?_set_self h]
      rfl
    rw [hg, List.set_set, hff]
  · rw [List.set_eq_of_length_le h]
    exact List.set_eq_of_length_le h

theorem set_comm_cells {r : List Value} {i j : ℕ} (hij : i ≠ j) (f g : Value → Value) :
    (r.set j (g (r.getD j Value.null))).set i
      (f ((r.set j (g (r.getD j Value.null))).getD i Value.null)) =
    (r.set i (f (r.getD i Value.null))).set j
      (g ((r.set i (f (r.getD i Value.null))).getD j Value.null)) := by
  rw [getD_set_ne hij.symm, getD_set_ne hij, List.set_comm _ _ _ hij.symm]

theorem mapCol_mapCol_self {c : String} {f : Value → Value} {df : PandasDF}
    (hff : ∀ v, f (f v) = f v) :
    mapCol c f (mapCol c f df) = mapCol c f df := by
  unfold mapCol
  simp only [List.map_map]
  refine congrArg (PandasDF.mk df.cols) ?_
  refine List.map_congr_left ?_
  intro r _
  exact set_f_twice hff

theorem mapCol_comm {c c2 : String} {f g : Value → Value} {df : PandasDF}
    (hij : df.cols.indexOf c ≠ df.cols.indexOf c2) :
    mapCol c f (mapCol c2 g df) = mapCol c2 g (mapCol c f df) := by
  unfold mapCol
  simp only [List.map_map]
  refine congrArg (PandasDF.mk df.cols) ?_
  refine List.map_congr_left ?_
  intro r _
  exact set_comm_cells hij f g

theorem cols_clean_airports {df : PandasDF} (hne : df.empty = false) :
    (clean_airports df).cols = df.cols := by
  simp only [clean_airports, hne, Bool.false_eq_true, if_false, apply_ite PandasDF.cols,
    cols_mapCol, cols_filterBetween, cols_dropnaSubset, ite_self]

theorem clean_airports_unfold {df : PandasDF} (hne : df.empty = false) :
    clean_airports df =
      (if "altitude" ∈ df.cols then
        mapCol "altitude" toNumeric
          (if "iata_code" ∈ df.cols then
            mapCol "iata_code" replaceIata
              (filterBetween "longitude" (-180) 180 (filterBetween "latitude" (-90) 90
                (dropnaSubset ["latitude", "longitude"] df)))
          else
            filterBetween "longitude" (-180) 180 (filterBetween "latitude" (-90) 90
              (dropnaSubset ["latitude", "longitude"] df)))
      else
        (if "iata_code" ∈ df.cols then
          mapCol "iata_code" replaceIata
            (filterBetween "longitude" (-180) 180 (filterBetween "latitude" (-90) 90
              (dropnaSubset ["latitude", "longitude"] df)))
        else
          filterBetween "longitude" (-180) 180 (filterBetween "latitude" (-90) 90
            (dropnaSubset ["latitude", "longitude"] df)))) := by
  simp only [clean_airports, hne, Bool.false_eq_true, if_false, apply_ite PandasDF.cols,
    cols_mapCol, cols_filterBetween, cols_dropnaSubset, ite_self]

theorem clean_airports_idem (df : PandasDF) :
    clean_airports (clean_airports df) = clean_airports df := by
  by_cases hemp : df.empty
  · rw [clean_airports_of_empty hemp, clean_airports_of_empty hemp]
  · have hne : df.empty = false := by
      rcases Bool.eq_false_or_eq_true df.empty with h | h
      exacts [absurd h hemp, h]
    by_cases hAr : (clean_airports df).rows = []
    · exact clean_airports_of_empty ((empty_iff _).mpr (Or.inl hAr))
    · have hdfc : df.cols ≠ [] := by
        intro h0
        have h1 : df.empty = true := (empty_iff df).mpr (Or.inr h0)
        rw [h1] at hne
        exact Bool.noConfusion hne
      have hcols : (clean_airports df).cols = df.cols := cols_clean_airports hne
      have hAne : (clean_airports df).empty = false := by
        rcases Bool.eq_false_or_eq_true (clean_airports df).empty with h | h
        · rcases (empty_iff _).mp h with h0 | h0
          · exact absurd h0 hAr
          · rw [hcols] at h0
            exact absurd h0 hdfc
        · exact h
      have hdrop : dropnaSubset ["latitude", "longitude"] (clean_airports df) =
          clean_airports df := by
        apply dropnaSubset_eq_self
        intro r hr
        obtain ⟨r0, -, hn1, hn2, -, -, he1, he2⟩ := mem_clean_airports hne hr
        rw [hcols]
        simp only [List.all_cons, List.all_nil, Bool.and_true, Bool.and_eq_true,
          Bool.not_eq_true']
        constructor
        · rw [he1]
          exact hn1
        · rw [he2]
          exact hn2
      have hlat : filterBetween "latitude" (-90) 90 (clean_airports df) =
          clean_airports df := by
        apply filterBetween_eq_self
        intro r hr
        obtain ⟨r0, -, -, -, hbla, -, he1, -⟩ := mem_clean_airports hne hr
        rw [hcols, he1]
        exact hbla
      have hlon : filterBetween "longitude" (-180) 180 (clean_airports df) =
          clean_airports df := by
        apply filterBetween_eq_self
        intro r hr
        obtain ⟨r0, -, -, -, -, hblo, -, he2⟩ := mem_clean_airports hne hr
        rw [hcols, he2]
        exact hblo
      rw [clean_airports_unfold hAne, hcols, hdrop, hlat, hlon,
        clean_airports_unfold hne]
      set B := filterBetween "longitude" (-180) 180 (filterBetween "latitude" (-90) 90
        (dropnaSubset ["latitude", "longitude"] df)) with hB
      have hBcols : B.cols = df.cols := by
        rw [hB, cols_filterBetween, cols_filterBetween, cols_dropnaSubset]
      by_cases hi : "iata_code" ∈ df.cols <;> by_cases halt : "altitude" ∈ df.cols
      · have hij : (mapCol "iata_code" replaceIata B).cols.indexOf "iata_code" ≠
            (mapCol "iata_code" replaceIata B).cols.indexOf "altitude" := by
          rw [cols_mapCol, hBcols]
          exact indexOf_ne_of_mem hi (by decide)
        rw [if_pos halt, if_pos hi, if_pos halt, if_pos hi, mapCol_comm hij,
          mapCol_mapCol_self replaceIata_fix, mapCol_mapCol_self toNumeric_fix]
      · rw [if_neg halt, if_pos hi, if_neg halt, if_pos hi,
          mapCol_mapCol_self replaceIata_fix]
      · rw [if_pos halt, if_neg hi, if_pos halt, if_neg hi,
          mapCol_mapCol_self toNumeric_fix]
      · rw [if_neg halt, if_neg hi, if_neg halt, if_neg hi]

theorem mapCol_of_rows_nil {c : String} {f : Value → Value} {df : PandasDF}
    (h0 : df.rows = []) : mapCol c f df = df := by
  obtain ⟨cols, rows⟩ := df
  have h1 : rows = [] := h0
  subst h1
  rfl

/-- Re-applying the altitude conversion of `clean_flights`: multiply the
altitude column by 3.28084 once more (a no-op when the column is absent). -/
def rescaleAltitude (df : PandasDF) : PandasDF :=
  if "altitude" ∈ df.cols then mapCol "altitude" altToFeet df else df

theorem rescale_of_rows_nil {df : PandasDF} (h0 : df.rows = []) :
    rescaleAltitude df = df := by
  unfold rescaleAltitude
  by_cases hg : "altitude" ∈ df.cols
  · rw [if_pos hg, mapCol_of_rows_nil h0]
  · rw [if_neg hg]

theorem clean_flights_twice (df : PandasDF) :
    clean_flights (clean_flights df) = rescaleAltitude (clean_flights df) := by
  by_cases hemp : df.empty
  · rw [clean_flights_of_empty hemp, clean_flights_of_empty hemp]
    rcases (empty_iff df).mp hemp with h0 | h0
    · exact (rescale_of_rows_nil h0).symm
    · unfold rescaleAltitude
      rw [if_neg (by rw [h0]; exact List.not_mem_nil _)]
  · have hne : df.empty = false := by
      rcases Bool.eq_false_or_eq_true df.empty with h | h
      exacts [absurd h hemp, h]
    by_cases h17 : df.shape1 = expectedColumns.length
    · have hCcols : (clean_flights df).cols = expectedColumns := by
        rw [clean_flights_eq hne h17]
        rfl
      by_cases hCr : (clean_flights df).rows = []
      · rw [clean_flights_of_empty ((empty_iff _).mpr (Or.inl hCr))]
        exact (rescale_of_rows_nil hCr).symm
      · have hCne : (clean_flights df).empty = false := by
          rcases Bool.eq_false_or_eq_true (clean_flights df).empty with h | h
          · rcases (empty_iff _).mp h with h0 | h0
            · exact absurd h0 hCr
            · rw [hCcols] at h0
              exact absurd h0 (by decide)
          · exact h
        have hC17 : (clean_flights df).shape1 = expectedColumns.length := by
          rw [PandasDF.shape1, hCcols]
        rw [clean_flights_eq hCne hC17]
        have hmk : (⟨expectedColumns, (clean_flights df).rows⟩ : PandasDF) =
            clean_flights df := by
          rw [← hCcols]
        rw [hmk]
        have i5 : expectedColumns.indexOf "longitude" = 5 := by decide
        have i6 : expectedColumns.indexOf "latitude" = 6 := by decide
        have hdropC : dropnaSubset ["longitude", "latitude"] (clean_flights df) =
            clean_flights df := by
          apply dropnaSubset_eq_self
          intro r hr
          obtain ⟨⟨la, hla, -, -⟩, ⟨lo, hlo, -, -⟩⟩ := clean_flights_cells hne h17 hr
          rw [hCcols]
          simp only [List.all_cons, List.all_nil, Bool.and_true, Bool.and_eq_true,
            Bool.not_eq_true']
          unfold cellAt
          rw [i5, i6, hla, hlo]
          exact ⟨rfl, rfl⟩
        have hlatC : filterBetween "latitude" (-90) 90 (clean_flights df) =
            clean_flights df := by
          apply filterBetween_eq_self
          intro r hr
          obtain ⟨⟨la, hla, hla1, hla2⟩, -⟩ := clean_flights_cells hne h17 hr
          rw [hCcols]
          unfold cellAt
          rw [i6, hla]
          simp [valGE, valLE, hla1, hla2]
        have hlonC : filterBetween "longitude" (-180) 180 (clean_flights df) =
            clean_flights df := by
          apply filterBetween_eq_self
          intro r hr
          obtain ⟨-, ⟨lo, hlo, hlo1, hlo2⟩⟩ := clean_flights_cells hne h17 hr
          rw [hCcols]
          unfold cellAt
          rw [i5, hlo]
          simp [valGE, valLE, hlo1, hlo2]
        rw [hdropC, hlatC, hlonC]
        have hresc : rescaleAltitude (clean_flights df) =
            mapCol "altitude" altToFeet (clean_flights df) := by
          unfold rescaleAltitude
          rw [if_pos (by rw [hCcols]; decide)]
        rw [hresc, clean_flights_eq hne h17]
        set X := filterBetween "longitude" (-180) 180 (filterBetween "latitude" (-90) 90
          (dropnaSubset ["longitude", "latitude"] ⟨expectedColumns, df.rows⟩)) with hX
        have hij : (mapCol "altitude" altToFeet X).cols.indexOf "altitude" ≠
            (mapCol "altitude" altToFeet X).cols.indexOf "callsign" := by
          rw [cols_mapCol, hX, cols_filterBetween, cols_filterBetween, cols_dropnaSubset]
          show expectedColumns.indexOf "altitude" ≠ expectedColumns.indexOf "callsign"
          decide
        rw [mapCol_comm hij, mapCol_mapCol_self callsignClean_fix]
    · rw [clean_flights_of_mismatch hne h17]
      rw [clean_flights_of_empty (by decide)]
      unfold rescaleAltitude
      rw [if_neg (by decide)]

/-- Counterexample to C2 as stated: a one-row flight batch with a numeric
altitude is changed again by a second cleaning pass — the altitude is
multiplied by 3.28084 a second time — so `clean_flights` is not idempotent. -/
theorem C2_cleaning_idempotent_counterexample :
    clean_flights (clean_flights ⟨expectedColumns,
      [[Value.null, Value.str "AB", Value.null, Value.null, Value.null,
        Value.num 10, Value.num 50, Value.num 1000, Value.null, Value.null, Value.null,
        Value.null, Value.null, Value.null, Value.null, Value.null, Value.null]]⟩) ≠
    clean_flights ⟨expectedColumns,
      [[Value.null, Value.str "AB", Value.null, Value.null, Value.null,
        Value.num 10, Value.num 50, Value.num 1000, Value.null, Value.null, Value.null,
        Value.null, Value.null, Value.null, Value.null, Value.null, Value.null]]⟩ := by
  have hc : clean_flights ⟨expectedColumns,
      [[Value.null, Value.str "AB", Value.null, Value.null, Value.null,
        Value.num 10, Value.num 50, Value.num 1000, Value.null, Value.null, Value.null,
        Value.null, Value.null, Value.null, Value.null, Value.null, Value.null]]⟩ =
      ⟨expectedColumns,
      [[Value.null, Value.str "AB", Value.null, Value.null, Value.null,
        Value.num 10, Value.num 50, Value.num (1000 * feetPerMeter), Value.null,
        Value.null, Value.null, Value.null, Value.null, Value.null, Value.null,
        Value.null, Value.null]]⟩ := rfl
  have hc2 : clean_flights (⟨expectedColumns,
      [[Value.null, Value.str "AB", Value.null, Value.null, Value.null,
        Value.num 10, Value.num 50, Value.num (1000 * feetPerMeter), Value.null,
        Value.null, Value.null, Value.null, Value.null, Value.null, Value.null,
        Value.null, Value.null]]⟩ : PandasDF) =
      ⟨expectedColumns,
      [[Value.null, Value.str "AB", Value.null, Value.null, Value.null,
        Value.num 10, Value.num 50, Value.num (1000 * feetPerMeter * feetPerMeter),
        Value.null, Value.null, Value.null, Value.null, Value.null, Value.null,
        Value.null, Value.null, Value.null]]⟩ := rfl
  intro heq
  rw [hc, hc2] at heq
  have hcell : Value.num (1000 * feetPerMeter * feetPerMeter) =
      Value.num (1000 * feetPerMeter) :=
    congrArg (fun d => (d.rows.headD []).getD 7 Value.null) heq
  have hq : (1000 * feetPerMeter * feetPerMeter : ℚ) = 1000 * feetPerMeter :=
    Value.num.inj hcell
  norm_num [feetPerMeter] at hq

/-- **C2 (amended).**  Cleaning an already-cleaned airport batch yields an
identical batch.  Cleaning an already-cleaned flight batch drops no rows and
changes no field except the altitude, which is multiplied by 3.28084 once
more. -/
theorem C2_cleaning_idempotent_amended :
    (∀ df : PandasDF, clean_airports (clean_airports df) = clean_airports df) ∧
    (∀ df : PandasDF,
      clean_flights (clean_flights df) = rescaleAltitude (clean_flights df) ∧
      (clean_flights (clean_flights df)).rows.length =
        (clean_flights df).rows.length) := by
  refine ⟨clean_airports_idem, fun df => ⟨clean_flights_twice df, ?_⟩⟩
  rw [clean_flights_twice df]
  unfold rescaleAltitude
  by_cases hg : "altitude" ∈ (clean_flights df).cols
  · rw [if_pos hg]
    unfold mapCol
    simp
  · rw [if_neg hg]

/-! ## Heap lemmas for the purity claims -/

theorem readH_append_lt {h : Heap} {a : ℕ} (ha : a < h.length) (v : PandasDF) :
    readH (h ++ [v]) a = readH h a := by
  unfold readH
  rw [List.getD_eq_getElem?_getD, List.getD_eq_getElem?_getD, List.getElem?_append_left ha]

theorem readH_append_self (h : Heap) (v : PandasDF) : readH (h ++ [v]) h.length = v := by
  unfold readH
  rw [List.getD_eq_getElem?_getD, List.getElem?_append_right (le_refl _)]
  simp

theorem readH_set_ne {h : Heap} {i a : ℕ} (hne : i ≠ a) (v : PandasDF) :
    readH (h.set i v) a = readH h a := by
  unfold readH
  rw [List.getD_eq_getElem?_getD, List.getD_eq_getElem?_getD, List.getElem?_set_ne hne]

theorem readH_set_self {h : Heap} {i : ℕ} (hi : i < h.length) (v : PandasDF) :
    readH (h.set i v) i = v := by
  unfold readH
  rw [List.getD_eq_getElem?_getD, List.getElem?_set_self hi]
  rfl

theorem cleanAirportsProg_spec (h : Heap) (a : ℕ) (ha : a < h.length) :
    readH (cleanAirportsProg h a).1 a = readH h a ∧
    readH (cleanAirportsProg h a).1 (cleanAirportsProg h a).2 =
      clean_airports (readH h a) := by
  unfold cleanAirportsProg
  by_cases hemp : (readH h a).empty
  · rw [if_pos hemp]
    exact ⟨rfl, (clean_airports_of_empty hemp).symm⟩
  · have hne : (readH h a).empty = false := by
      rcases Bool.eq_false_or_eq_true (readH h a).empty with hx | hx
      exacts [absurd hx hemp, hx]
    rw [if_neg hemp]
    simp only [readH_append_self, cols_filterBetween, cols_dropnaSubset, cols_mapCol]
    have hBcols : (mapCol "iata_code" replaceIata (filterBetween "longitude" (-180) 180
        (filterBetween "latitude" (-90) 90
          (dropnaSubset ["latitude", "longitude"] (readH h a))))).cols =
        (readH h a).cols := by
      rw [cols_mapCol, cols_filterBetween, cols_filterBetween, cols_dropnaSubset]
    by_cases hi : "iata_code" ∈ (readH h a).cols
    · rw [if_pos hi, readH_set_self (by simp), hBcols]
      by_cases halt : "altitude" ∈ (readH h a).cols
      · rw [if_pos halt, readH_set_self (by simp)]
        constructor
        · rw [readH_set_ne (by simp; omega), readH_set_ne (by simp; omega),
            readH_append_lt (by simp; omega), readH_append_lt (by simp; omega),
            readH_append_lt (by simp; omega), readH_append_lt ha]
        · rw [clean_airports_unfold hne, if_pos halt, if_pos hi]
      · rw [if_neg halt]
        constructor
        · rw [readH_set_ne (by simp; omega), readH_append_lt (by simp; omega),
            readH_append_lt (by simp; omega), readH_append_lt (by simp; omega),
            readH_append_lt ha]
        · rw [readH_set_self (by simp), clean_airports_unfold hne, if_neg halt, if_pos hi]
    · rw [if_neg hi]
      have hFcols : (filterBetween "longitude" (-180) 180 (filterBetween "latitude" (-90) 90
          (dropnaSubset ["latitude", "longitude"] (readH h a)))).cols =
          (readH h a).cols := by
        rw [cols_filterBetween, cols_filterBetween, cols_dropnaSubset]
      rw [readH_append_self, hFcols]
      by_cases halt : "altitude" ∈ (readH h a).cols
      · rw [if_pos halt, readH_set_self (by simp)]
        constructor
        · rw [readH_set_ne (by simp; omega), readH_append_lt (by simp; omega),
            readH_append_lt (by simp; omega), readH_append_lt (by simp; omega),
            readH_append_lt ha]
        · rw [clean_airports_unfold hne, if_pos halt, if_neg hi]
      · rw [if_neg halt]
        constructor
        · rw [readH_append_lt (by simp; omega), readH_append_lt (by simp; omega),
            readH_append_lt (by simp; omega), readH_append_lt ha]
        · rw [readH_append_self, clean_airports_unfold hne, if_neg halt, if_neg hi]

theorem cleanFlightsProg_spec (h : Heap) (a : ℕ) (ha : a < h.length) :
    readH (cleanFlightsProg h a).1 a = readH h a ∧
    readH (cleanFlightsProg h a).1 (cleanFlightsProg h a).2 =
      clean_flights (readH h a) := by
  unfold cleanFlightsProg
  by_cases hemp : (readH h a).empty
  · rw [if_pos hemp]
    exact ⟨rfl, (clean_flights_of_empty hemp).symm⟩
  · have hne : (readH h a).empty = false := by
      rcases Bool.eq_false_or_eq_true (readH h a).empty with hx | hx
      exacts [absurd hx hemp, hx]
    rw [if_neg hemp]
    simp only [readH_append_self]
    by_cases h17 : (readH h a).shape1 = expectedColumns.length
    · rw [if_pos h17, readH_set_self (by simp), readH_set_self (by simp)]
      constructor
      · rw [readH_set_ne (by simp; omega), readH_set_ne (by simp; omega),
          readH_append_lt (by simp; omega), readH_append_lt (by simp; omega),
          readH_append_lt (by simp; omega), readH_set_ne (by omega),
          readH_append_lt ha]
      · rw [readH_set_self (by simp), clean_flights_eq hne h17]
    · rw [if_neg h17]
      constructor
      · rw [readH_append_lt (by simp; omega), readH_append_lt ha]
      · rw [readH_append_self, clean_flights_of_mismatch hne h17]

/-- **C5.**  The cleaning functions never mutate their argument: running
either statement-by-statement program on the heap leaves the data frame at
the argument's address unchanged, and the returned address holds exactly the
value of the pure cleaning function — every transformation acts on the copy
made on entry. -/
theorem C5_clean_pure_of_argument (h : Heap) (a : ℕ) (ha : a < h.length) :
    readH (cleanAirportsProg h a).1 a = readH h a ∧
    readH (cleanFlightsProg h a).1 a = readH h a ∧
    readH (cleanAirportsProg h a).1 (cleanAirportsProg h a).2 =
      clean_airports (readH h a) ∧
    readH (cleanFlightsProg h a).1 (cleanFlightsProg h a).2 =
      clean_flights (readH h a) :=
  ⟨(cleanAirportsProg_spec h a ha).1, (cleanFlightsProg_spec h a ha).1,
   (cleanAirportsProg_spec h a ha).2, (cleanFlightsProg_spec h a ha).2⟩

/-- Witness for C5 on a one-object heap holding a small airport batch. -/
theorem C5_clean_pure_of_argument_witness :
    readH (cleanAirportsProg [⟨["latitude", "longitude"],
      [[Value.num 1, Value.num 2]]⟩] 0).1 0 =
      readH [⟨["latitude", "longitude"], [[Value.num 1, Value.num 2]]⟩] 0 ∧
    readH (cleanFlightsProg [⟨["latitude", "longitude"],
      [[Value.num 1, Value.num 2]]⟩] 0).1 0 =
      readH [⟨["latitude", "longitude"], [[Value.num 1, Value.num 2]]⟩] 0 ∧
    readH (cleanAirportsProg [⟨["latitude", "longitude"],
        [[Value.num 1, Value.num 2]]⟩] 0).1
      (cleanAirportsProg [⟨["latitude", "longitude"],
        [[Value.num 1, Value.num 2]]⟩] 0).2 =
      clean_airports (readH [⟨["latitude", "longitude"],
        [[Value.num 1, Value.num 2]]⟩] 0) ∧
    readH (cleanFlightsProg [⟨["latitude", "longitude"],
        [[Value.num 1, Value.num 2]]⟩] 0).1
      (cleanFlightsProg [⟨["latitude", "longitude"],
        [[Value.num 1, Value.num 2]]⟩] 0).2 =
      clean_flights (readH [⟨["latitude", "longitude"],
        [[Value.num 1, Value.num 2]]⟩] 0) :=
  C5_clean_pure_of_argument [⟨["latitude", "longitude"],
    [[Value.num 1, Value.num 2]]⟩] 0 (by decide)

/-- **C4.**  With no write failure, the load stage always replaces the
`airports` table with the cleaned airport batch (even an empty one), leaves
the `flights` table untouched when the cleaned flight batch is empty, and
fully replaces the `flights` table when the batch is non-empty. -/
theorem C4_load_replace_asymmetry (db : DBState) (airports_df flights_df : PandasDF) :
    (load_to_database (fun _ => true) db airports_df flights_df).1.airports =
      some airports_df ∧
    (flights_df.empty = true →
      (load_to_database (fun _ => true) db airports_df flights_df).1.flights =
        db.flights) ∧
    (flights_df.empty = false →
      (load_to_database (fun _ => true) db airports_df flights_df).1.flights =
        some flights_df) := by
  refine ⟨?_, ?_, ?_⟩
  · by_cases hfl : flights_df.empty <;>
      simp [load_to_database, execQuery, setTable, hfl]
  · intro hfl
    simp [load_to_database, execQuery, setTable, hfl]
  · intro hfl
    simp [load_to_database, execQuery, setTable, hfl]

/-- Witness for C4: an empty airport batch still replaces the airports
table with zero rows; an empty flight batch leaves the pre-existing flights
table; a non-empty flight batch replaces it. -/
theorem C4_load_replace_asymmetry_witness :
    (load_to_database (fun _ => true)
      ⟨some ⟨["name"], [[Value.str "old"]]⟩, some ⟨["callsign"], [[Value.str "keep"]]⟩⟩
      ⟨["name"], []⟩ emptyDF).1.airports = some ⟨["name"], []⟩ ∧
    (load_to_database (fun _ => true)
      ⟨some ⟨["name"], [[Value.str "old"]]⟩, some ⟨["callsign"], [[Value.str "keep"]]⟩⟩
      ⟨["name"], []⟩ emptyDF).1.flights =
      (⟨some ⟨["name"], [[Value.str "old"]]⟩,
        some ⟨["callsign"], [[Value.str "keep"]]⟩⟩ : DBState).flights ∧
    (load_to_database (fun _ => true)
      ⟨some ⟨["name"], [[Value.str "old"]]⟩, some ⟨["callsign"], [[Value.str "keep"]]⟩⟩
      ⟨["name"], []⟩ ⟨["callsign"], [[Value.str "new"]]⟩).1.flights =
      some ⟨["callsign"], [[Value.str "new"]]⟩ :=
  ⟨(C4_load_replace_asymmetry
      ⟨some ⟨["name"], [[Value.str "old"]]⟩, some ⟨["callsign"], [[Value.str "keep"]]⟩⟩
      ⟨["name"], []⟩ emptyDF).1,
   (C4_load_replace_asymmetry
      ⟨some ⟨["name"], [[Value.str "old"]]⟩, some ⟨["callsign"], [[Value.str "keep"]]⟩⟩
      ⟨["name"], []⟩ emptyDF).2.1 (by decide),
   (C4_load_replace_asymmetry
      ⟨some ⟨["name"], [[Value.str "old"]]⟩, some ⟨["callsign"], [[Value.str "keep"]]⟩⟩
      ⟨["name"], []⟩ ⟨["callsign"], [[Value.str "new"]]⟩).2.2 (by decide)⟩

/-- **C6.**  Any write error raised inside the loader is caught at its
boundary and turned into a diagnostic message; the load-then-verify run
always completes normally (never propagates an exception) and still reaches
the verification stage, whose result is computed on the post-load state. -/
theorem C6_load_failure_degraded_continue (wok rok : ℕ → Bool) (db : DBState)
    (airports_df flights_df : PandasDF) :
    (∃ out, etlRun wok rok db airports_df flights_df = Except.ok out ∧
      out.verifyResult = verify_data rok out.db) ∧
    (∀ e, execQuery wok 0 db (Query.toSqlReplace "airports" airports_df) =
        Except.error e →
      errorLoadingMsg e ∈ (load_to_database wok db airports_df flights_df).2) ∧
    (∀ e r db1, execQuery wok 0 db (Query.toSqlReplace "airports" airports_df) =
        Except.ok (r, db1) →
      flights_df.empty = false →
      execQuery wok 1 db1 (Query.toSqlReplace "flights" flights_df) =
        Except.error e →
      errorLoadingMsg e ∈ (load_to_database wok db airports_df flights_df).2) := by
  refine ⟨⟨⟨(load_to_database wok db airports_df flights_df).1,
      (load_to_database wok db airports_df flights_df).2,
      verify_data rok (load_to_database wok db airports_df flights_df).1⟩,
      rfl, rfl⟩, ?_, ?_⟩
  · intro e he
    unfold load_to_database
    rw [he]
    exact List.mem_singleton.mpr rfl
  · intro e r db1 hok hfl herr
    unfold load_to_database
    rw [hok, hfl]
    show errorLoadingMsg e ∈
      (match execQuery wok 1 db1 (Query.toSqlReplace "flights" flights_df) with
        | Except.error e => (db1, ["Loaded airports", errorLoadingMsg e])
        | Except.ok (_, db2) => (db2, ["Loaded airports", "Loaded flights"])).2
    rw [herr]
    simp

/-- Witness for C6: with a connection that always fails, the airports write
error is reported as a diagnostic and the run still completes with a
verification result. -/
theorem C6_load_failure_degraded_continue_witness :
    (∃ out, etlRun (fun _ => false) (fun _ => false)
        ⟨none, none⟩ ⟨["name"], []⟩ emptyDF = Except.ok out ∧
      out.verifyResult = verify_data (fun _ => false) out.db) ∧
    errorLoadingMsg "database connection error" ∈
      (load_to_database (fun _ => false) ⟨none, none⟩ ⟨["name"], []⟩ emptyDF).2 :=
  ⟨(C6_load_failure_degraded_continue (fun _ => false) (fun _ => false)
      ⟨none, none⟩ ⟨["name"], []⟩ emptyDF).1,
   (C6_load_failure_degraded_continue (fun _ => false) (fun _ => false)
      ⟨none, none⟩ ⟨["name"], []⟩ emptyDF).2.1 "database connection error" rfl⟩

theorem execQuery_readCount_ok {ok : ℕ → Bool} {i : ℕ} {db : DBState} {t : String}
    {r : QueryResult} {db2 : DBState}
    (h : execQuery ok i db (Query.readCount t) = Except.ok (r, db2)) :
    db2 = db ∧ ∃ df, tableOf db t = some df ∧ r = QueryResult.count df.rows.length := by
  unfold execQuery at h
  by_cases hoki : ok i
  · rw [if_pos hoki] at h
    simp only [] at h
    cases htab : tableOf db t with
    | none =>
      rw [htab] at h
      exact absurd h (by simp)
    | some df =>
      rw [htab] at h
      simp only [Except.ok.injEq, Prod.mk.injEq] at h
      exact ⟨h.2.symm, df, rfl, h.1.symm⟩
  · rw [if_neg hoki] at h
    exact absurd h (by simp)

theorem execQuery_readSample_ok {ok : ℕ → Bool} {i : ℕ} {db : DBState} {t : String}
    {sel : List String} {n : ℕ} {r : QueryResult} {db2 : DBState}
    (h : execQuery ok i db (Query.readSample t sel n) = Except.ok (r, db2)) :
    db2 = db ∧
      ∃ df, tableOf db t = some df ∧ r = QueryResult.sample ((project sel df).take n) := by
  unfold execQuery at h
  by_cases hoki : ok i
  · rw [if_pos hoki] at h
    simp only [] at h
    cases htab : tableOf db t with
    | none =>
      rw [htab] at h
      exact absurd h (by simp)
    | some df =>
      rw [htab] at h
      simp only [Except.ok.injEq, Prod.mk.injEq] at h
      exact ⟨h.2.symm, df, rfl, h.1.symm⟩
  · rw [if_neg hoki] at h
    exact absurd h (by simp)

/-- **C7.**  Verification is read-only (a successful body returns the
database unchanged and only count/sample results, with at most the first 3
rows of each table), reports zero-row tables as an ordinary report without
raising, and converts any query failure — e.g. an absent table or a lost
connection — into a caught diagnostic instead of propagating it. -/
theorem C7_verify_read_only_and_caught :
    (∀ (ok : ℕ → Bool) (db : DBState) (rep : VerifyReport) (db2 : DBState),
      verifyBody ok db = Except.ok (rep, db2) →
        db2 = db ∧ rep.sampleAirports.length ≤ 3 ∧
        (∀ s, rep.sampleFlights = some s → s.length ≤ 3)) ∧
    (∀ (db : DBState) (adf fdf : PandasDF), db.airports = some adf →
      db.flights = some fdf → fdf.rows = [] →
      verify_data (fun _ => true) db = VerifyResult.report
        ⟨adf.rows.length, 0, (project ["name", "city", "country"] adf).take 3, none⟩) ∧
    (∀ (ok : ℕ → Bool) (db : DBState), db.flights = none →
      ∃ e, verify_data ok db = VerifyResult.caught e) := by
  refine ⟨?_, ?_, ?_⟩
  · intro ok db rep db2 hok
    unfold verifyBody at hok
    split at hok
    · exact absurd hok (by simp)
    · split at hok
      · exact absurd hok (by simp)
      · split at hok
        · exact absurd hok (by simp)
        · split at hok
          · split at hok
            · exact absurd hok (by simp)
            · rename_i x0 r1 d1 h0 x1 r2 d2 h1 x2 r3 d3 h2 hfc x3 r4 d4 h3
              simp only [Except.ok.injEq, Prod.mk.injEq] at hok
              obtain ⟨hrep, hdb⟩ := hok
              subst hrep
              subst hdb
              obtain ⟨e1, -⟩ := execQuery_readCount_ok h0
              obtain ⟨e2, -⟩ := execQuery_readCount_ok h1
              obtain ⟨e3, df3, -, hr3⟩ := execQuery_readSample_ok h2
              obtain ⟨e4, df4, -, hr4⟩ := execQuery_readSample_ok h3
              refine ⟨e4.trans (e3.trans (e2.trans e1)), ?_, ?_⟩
              · show (sampleOf r3).length ≤ 3
                rw [hr3]
                show ((project ["name", "city", "country"] df3).take 3).length ≤ 3
                rw [List.length_take]
                exact min_le_left _ _
              · intro s hs
                have hs2 : s = sampleOf r4 := by
                  have := Option.some.inj hs
                  exact this.symm
                subst hs2
                rw [hr4]
                show ((project ["callsign", "origin_country", "altitude"] df4).take 3).length ≤ 3
                rw [List.length_take]
                exact min_le_left _ _
          · rename_i x0 r1 d1 h0 x1 r2 d2 h1 x2 r3 d3 h2 hfc
            simp only [Except.ok.injEq, Prod.mk.injEq] at hok
            obtain ⟨hrep, hdb⟩ := hok
            subst hrep
            subst hdb
            obtain ⟨e1, -⟩ := execQuery_readCount_ok h0
            obtain ⟨e2, -⟩ := execQuery_readCount_ok h1
            obtain ⟨e3, df3, -, hr3⟩ := execQuery_readSample_ok h2
            refine ⟨e3.trans (e2.trans e1), ?_, ?_⟩
            · show (sampleOf r3).length ≤ 3
              rw [hr3]
              show ((project ["name", "city", "country"] df3).take 3).length ≤ 3
              rw [List.length_take]
              exact min_le_left _ _
            · intro s hs
              exact absurd hs (by simp)
  · intro db adf fdf hA hF hrows
    have h0 : execQuery (fun _ => true) 0 db (Query.readCount "airports") =
        Except.ok (QueryResult.count adf.rows.length, db) := by
      unfold execQuery tableOf
      simp [hA]
    have h1 : execQuery (fun _ => true) 1 db (Query.readCount "flights") =
        Except.ok (QueryResult.count 0, db) := by
      unfold execQuery tableOf
      simp [hF, hrows]
    have h2 : execQuery (fun _ => true) 2 db
        (Query.readSample "airports" ["name", "city", "country"] 3) =
        Except.ok (QueryResult.sample
          ((project ["name", "city", "country"] adf).take 3), db) := by
      unfold execQuery tableOf
      simp [hA]
    unfold verify_data verifyBody
    rw [h0]
    simp only []
    rw [h1]
    simp only []
    rw [h2]
    simp only []
    rw [if_neg (by simp [countOf])]
    rfl
  · intro ok db hF
    by_cases h0 : ok 0 = true
    · cases hA : db.airports with
      | none =>
        refine ⟨"Error verifying data: " ++ ("relation does not exist: " ++ "airports"), ?_⟩
        unfold verify_data verifyBody execQuery tableOf
        simp [h0, hA]
      | some adf =>
        by_cases h1 : ok 1 = true
        · refine ⟨"Error verifying data: " ++ ("relation does not exist: " ++ "flights"), ?_⟩
          unfold verify_data verifyBody execQuery tableOf
          simp [h0, h1, hA, hF]
        · refine ⟨"Error verifying data: " ++ "database connection error", ?_⟩
          unfold verify_data verifyBody execQuery tableOf
          simp [h0, h1, hA]
    · refine ⟨"Error verifying data: " ++ "database connection error", ?_⟩
      unfold verify_data verifyBody execQuery tableOf
      simp [h0]

/-- Witness for C7: a concrete two-table database with one row each, a
database whose tables are both empty, and a database with no flights table. -/
theorem C7_verify_read_only_and_caught_witness :
    ((⟨some ⟨["name", "city", "country"], [[Value.str "a", Value.str "b", Value.str "c"]]⟩,
        some ⟨["callsign", "origin_country", "altitude"],
          [[Value.str "x", Value.str "y", Value.null]]⟩⟩ : DBState) =
      ⟨some ⟨["name", "city", "country"], [[Value.str "a", Value.str "b", Value.str "c"]]⟩,
        some ⟨["callsign", "origin_country", "altitude"],
          [[Value.str "x", Value.str "y", Value.null]]⟩⟩ ∧
      (VerifyReport.mk 1 1 [[Value.str "a", Value.str "b", Value.str "c"]]
        (some [[Value.str "x", Value.str "y", Value.null]])).sampleAirports.length ≤ 3 ∧
      (∀ s, (VerifyReport.mk 1 1 [[Value.str "a", Value.str "b", Value.str "c"]]
        (some [[Value.str "x", Value.str "y", Value.null]])).sampleFlights = some s →
        s.length ≤ 3)) ∧
    verify_data (fun _ => true)
      ⟨some ⟨["name", "city", "country"], []⟩, some ⟨["callsign"], []⟩⟩ =
      VerifyResult.report ⟨(⟨["name", "city", "country"], []⟩ : PandasDF).rows.length, 0,
        (project ["name", "city", "country"] ⟨["name", "city", "country"], []⟩).take 3,
        none⟩ ∧
    (∃ e, verify_data (fun _ => true)
      ⟨some ⟨["name", "city", "country"], []⟩, none⟩ = VerifyResult.caught e) :=
  ⟨C7_verify_read_only_and_caught.1 (fun _ => true)
      ⟨some ⟨["name", "city", "country"], [[Value.str "a", Value.str "b", Value.str "c"]]⟩,
        some ⟨["callsign", "origin_country", "altitude"],
          [[Value.str "x", Value.str "y", Value.null]]⟩⟩
      ⟨1, 1, [[Value.str "a", Value.str "b", Value.str "c"]],
        some [[Value.str "x", Value.str "y", Value.null]]⟩
      ⟨some ⟨["name", "city", "country"], [[Value.str "a", Value.str "b", Value.str "c"]]⟩,
        some ⟨["callsign", "origin_country", "altitude"],
          [[Value.str "x", Value.str "y", Value.null]]⟩⟩
      rfl,
   C7_verify_read_only_and_caught.2.1
      ⟨some ⟨["name", "city", "country"], []⟩, some ⟨["callsign"], []⟩⟩
      ⟨["name", "city", "country"], []⟩ ⟨["callsign"], []⟩ rfl rfl rfl,
   C7_verify_read_only_and_caught.2.2 (fun _ => true)
      ⟨some ⟨["name", "city", "country"], []⟩, none⟩ rfl⟩
